import Mathlib

/-!
The c-init repository: the greeter process (`src/main.c`)

A shallow embedding of the single routine of the repository,

```c
int main(int argc, char **argv)
{
	(void)argc, (void)argv;
	char *msg = "Hello, World!";

	printf("%s\n", msg);

	return (0);
}
```

Bytes are natural numbers.  A `char *` is the list of bytes found in memory
from the pointer onwards, so a string literal is its bytes followed by the
terminating NUL, and the string it denotes is read up to the first NUL.
`printf` is the C library routine, restricted to the directives a format can
be built from here (ordinary bytes, `%s`, `%%`); it formats into a byte list
and hands that list to the standard output stream in one write.  The outcome
of that write is chosen by the environment and is an explicit parameter.
-/

namespace CInit

/-! ## Data model -/

/-- The string a `char *` denotes: the bytes before the first NUL. -/
def cstr (p : List Nat) : List Nat :=
  p.takeWhile (fun b => b != 0)

/-- The literal `"Hello, World!"` as laid out in memory (NUL terminated). -/
def msgLit : List Nat :=
  [0x48, 0x65, 0x6C, 0x6C, 0x6F, 0x2C, 0x20, 0x57, 0x6F, 0x72, 0x6C, 0x64, 0x21, 0x00]

/-- The literal `"%s\n"` as laid out in memory (NUL terminated). -/
def fmtLit : List Nat :=
  [0x25, 0x73, 0x0A, 0x00]

/-- A variadic argument of `printf`. -/
inductive Arg where
  | str (p : List Nat)
  | int (i : Int)
  deriving DecidableEq, Repr

/-- Formatting of `printf` over the bytes of the format string: `%s` is
replaced by the string its argument points to, `%%` by a percent sign, any
other byte is copied.  A directive outside this fragment, or one whose
argument is missing or of the wrong kind, yields `none`. -/
def vformat : List Nat → List Arg → Option (List Nat)
  | [], _ => some []
  | 0x25 :: 0x73 :: fmt, Arg.str p :: args => (vformat fmt args).map (fun r => cstr p ++ r)
  | 0x25 :: 0x25 :: fmt, args => (vformat fmt args).map (fun r => 0x25 :: r)
  | 0x25 :: _, _ => none
  | c :: fmt, args => (vformat fmt args).map (fun r => c :: r)

/-- Everything outside the process that it could affect. -/
structure World where
  stdout : List Nat
  stderr : List Nat
  files : List (List Nat × List Nat)
  env : List (List Nat × List Nat)
  deriving DecidableEq, Repr

/-- An output action issued by a process: bytes handed to a file descriptor. -/
inductive Action where
  | write (fd : Nat) (bytes : List Nat)
  deriving DecidableEq, Repr

/-- The world together with the history of the actions issued so far. -/
structure Sys where
  world : World
  trace : List Action
  deriving DecidableEq, Repr

/-- What the environment does with a write to standard output. -/
inductive WriteOutcome where
  | ok
  | fail
  deriving DecidableEq, Repr

/-- The system before anything has run: empty streams, no files, no
environment, no action issued. -/
def initSys : Sys :=
  { world := { stdout := [], stderr := [], files := [], env := [] }, trace := [] }

/-! ## Operations -/

/-- The library routine `printf(fmt, args...)`: formats, issues one write of
the formatted bytes to file descriptor 1, and returns the number of bytes
written, or a negative value when formatting or the write fails.  A failed
write leaves the stream as it was. -/
def printf (fmt : List Nat) (args : List Arg) (o : WriteOutcome) (s : Sys) : Int × Sys :=
  match vformat (cstr fmt) args with
  | none => (-1, s)
  | some out =>
    let s1 : Sys := { s with trace := s.trace ++ [Action.write 1 out] }
    match o with
    | WriteOutcome.ok =>
      ((out.length : Int), { s1 with world := { s1.world with stdout := s1.world.stdout ++ out } })
    | WriteOutcome.fail => (-1, s1)

/-- The entry point `main(argc, argv)` of `src/main.c`.  The two parameters
are evaluated and discarded, `msg` is bound to the literal, `printf` is called
and its result is dropped, and the function returns `0`. -/
def main (argc : Int) (argv : List (List Nat)) (o : WriteOutcome) (s : Sys) : Int × Sys :=
  let _ := argc
  let _ := argv
  let msg := msgLit
  let r := printf fmtLit [Arg.str msg] o s
  (0, r.2)

/-- Runs the program once for every entry of the list, in order, each run on
the state the previous one left; returns the exit statuses and the final
state.  Every write succeeds. -/
def runSeq : List (Int × List (List Nat)) → Sys → List Int × Sys
  | [], s => ([], s)
  | a :: rest, s =>
    let r := main a.1 a.2 WriteOutcome.ok s
    let t := runSeq rest r.2
    (r.1 :: t.1, t.2)

/-- The bytes found on standard output after one run from the initial system. -/
def output (argc : Int) (argv : List (List Nat)) : List Nat :=
  (main argc argv WriteOutcome.ok initSys).2.world.stdout

/-- The expected line: `Hello, World!` and one newline. -/
def helloLine : List Nat :=
  [0x48, 0x65, 0x6C, 0x6C, 0x6F, 0x2C, 0x20, 0x57, 0x6F, 0x72, 0x6C, 0x64, 0x21, 0x0A]

/-- The bytes of a text in UTF-8. -/
def utf8 (t : String) : List Nat :=
  (t.data.flatMap String.utf8EncodeChar).map UInt8.toNat

/-- The code of every character of a text, which for ASCII text is its
encoding. -/
def ascii (t : String) : List Nat :=
  t.data.map Char.toNat

/-- The program name `./a.out`, as passed in `argv[0]`. -/
def progName : List Nat :=
  [0x2E, 0x2F, 0x61, 0x2E, 0x6F, 0x75, 0x74, 0x00]

/-- The argument vector of an invocation without arguments. -/
def argvNone : List (List Nat) :=
  [progName]

/-- The argument vector of an invocation with the arguments `foo` and `bar`. -/
def argvFooBar : List (List Nat) :=
  [progName, [0x66, 0x6F, 0x6F, 0x00], [0x62, 0x61, 0x72, 0x00]]

/-- An argument vector whose argument is not valid UTF-8: a lone continuation
byte, an overlong lead byte followed by `(`, and the bytes `FF FE`. -/
def argvMalformed : List (List Nat) :=
  [progName, [0x80, 0xC3, 0x28, 0xFF, 0xFE, 0x00]]

/-! ## Basic facts about the embedding -/

theorem vformat_hello : vformat (cstr fmtLit) [Arg.str msgLit] = some helloLine := by
  rfl

theorem main_ok_eq (argc : Int) (argv : List (List Nat)) (s : Sys) :
    main argc argv WriteOutcome.ok s =
      (0, { world := { s.world with stdout := s.world.stdout ++ helloLine },
            trace := s.trace ++ [Action.write 1 helloLine] }) := by
  simp [main, printf, vformat_hello]

theorem main_fail_eq (argc : Int) (argv : List (List Nat)) (s : Sys) :
    main argc argv WriteOutcome.fail s =
      (0, { s with trace := s.trace ++ [Action.write 1 helloLine] }) := by
  simp [main, printf, vformat_hello]

theorem output_eq (argc : Int) (argv : List (List Nat)) : output argc argv = helloLine := by
  simp [output, main_ok_eq, initSys]

theorem runSeq_append (xs ys : List (Int × List (List Nat))) (s : Sys) :
    runSeq (xs ++ ys) s =
      ((runSeq xs s).1 ++ (runSeq ys (runSeq xs s).2).1, (runSeq ys (runSeq xs s).2).2) := by
  induction xs generalizing s with
  | nil => simp [runSeq]
  | cons a rest ih => simp [runSeq, ih]

theorem runSeq_status (xs : List (Int × List (List Nat))) (s : Sys) :
    (runSeq xs s).1 = List.replicate xs.length 0 := by
  induction xs generalizing s with
  | nil => simp [runSeq]
  | cons a rest ih => simp [runSeq, ih, main_ok_eq, List.replicate_succ]

theorem runSeq_stdout (xs : List (Int × List (List Nat))) (s : Sys) :
    (runSeq xs s).2.world.stdout =
      s.world.stdout ++ (List.replicate xs.length helloLine).flatten := by
  induction xs generalizing s with
  | nil => simp [runSeq]
  | cons a rest ih => simp [runSeq, ih, main_ok_eq, List.replicate_succ]

theorem runSeq_trace (xs : List (Int × List (List Nat))) (s : Sys) :
    (runSeq xs s).2.trace =
      s.trace ++ List.replicate xs.length (Action.write 1 helloLine) := by
  induction xs generalizing s with
  | nil => simp [runSeq]
  | cons a rest ih => simp [runSeq, ih, main_ok_eq, List.replicate_succ]

theorem runSeq_frame (xs : List (Int × List (List Nat))) (s : Sys) :
    (runSeq xs s).2.world.stderr = s.world.stderr ∧
    (runSeq xs s).2.world.files = s.world.files ∧
    (runSeq xs s).2.world.env = s.world.env := by
  induction xs generalizing s with
  | nil => simp [runSeq]
  | cons a rest ih => simp [runSeq, ih, main_ok_eq]

/-! ## The claims -/

/-- C1: for every argument count and argument vector, the empty one included,
and from every starting state, `main` issues exactly one write, of the bytes
`Hello, World!` followed by one newline byte, to standard output, those bytes
are what a run leaves on an empty standard output, and the exit status is 0;
in particular so without arguments and with the arguments `foo` and `bar`. -/
theorem main_writes_hello_and_returns_zero (argc : Int) (argv : List (List Nat))
    (o : WriteOutcome) (s : Sys) :
    (main argc argv o s).1 = 0 ∧
    (main argc argv o s).2.trace = s.trace ++ [Action.write 1 helloLine] ∧
    (main argc argv WriteOutcome.ok s).2.world.stdout = s.world.stdout ++ helloLine ∧
    output argc argv = helloLine ∧
    helloLine = utf8 "Hello, World!" ++ [0x0A] ∧
    output 0 [] = helloLine ∧
    (main 1 argvNone WriteOutcome.ok initSys).1 = 0 ∧
    output 1 argvNone = helloLine ∧
    (main 3 argvFooBar WriteOutcome.ok initSys).1 = 0 ∧
    output 3 argvFooBar = helloLine := by
  refine ⟨?_, ?_, ?_, output_eq _ _, by rfl, output_eq _ _, ?_, output_eq _ _, ?_,
    output_eq _ _⟩
  · cases o <;> simp [main_ok_eq, main_fail_eq]
  · cases o <;> simp [main_ok_eq, main_fail_eq]
  · simp [main_ok_eq]
  · simp [main_ok_eq]
  · simp [main_ok_eq]

/-- C2: the exit status of `main` is 0 for every input, every starting state
and either outcome of the write to standard output; the value `printf`
returns does depend on that outcome (14 on success, negative on failure) and
is discarded. -/
theorem main_exit_status_zero (argc : Int) (argv : List (List Nat))
    (o : WriteOutcome) (s : Sys) :
    (main argc argv o s).1 = 0 ∧
    (printf fmtLit [Arg.str msgLit] WriteOutcome.ok s).1 = 14 ∧
    (printf fmtLit [Arg.str msgLit] WriteOutcome.fail s).1 = -1 ∧
    (main argc argv WriteOutcome.ok s).1 = (main argc argv WriteOutcome.fail s).1 := by
  refine ⟨?_, ?_, ?_, ?_⟩
  · cases o <;> simp [main_ok_eq, main_fail_eq]
  · simp [printf, vformat_hello, helloLine]
  · simp [printf, vformat_hello]
  · simp [main_ok_eq, main_fail_eq]

/-- C3: the arguments are never inspected: two invocations of `main` with
arbitrary argument counts and vectors, in the same state and environment, give
the same exit status, the same bytes on standard output and the same final
state; in particular an argument of malformed, non-UTF-8 bytes gives what an
invocation without arguments gives. -/
theorem main_ignores_arguments (argc argc' : Int) (argv argv' : List (List Nat))
    (o : WriteOutcome) (s : Sys) :
    main argc argv o s = main argc' argv' o s ∧
    output argc argv = output argc' argv' ∧
    main 2 argvMalformed o s = main 1 argvNone o s ∧
    output 2 argvMalformed = output 1 argvNone := by
  refine ⟨?_, ?_, ?_, ?_⟩
  · cases o <;> simp [main_ok_eq, main_fail_eq]
  · simp [output_eq]
  · cases o <;> simp [main_ok_eq, main_fail_eq]
  · simp [output_eq]

/-- C4: running the program once per entry of `xs`, in sequence, every run
exits with status 0 and issues the same write of `Hello, World!` and a
newline; a further run, on whatever state the earlier runs left, again exits
with 0 and appends exactly that line; and `n` runs from an empty stream leave
exactly `n` concatenated copies of the line. -/
theorem runs_in_sequence_repeat_output (xs : List (Int × List (List Nat)))
    (a : Int × List (List Nat)) (n : Nat) (s : Sys) :
    (runSeq xs s).1 = List.replicate xs.length 0 ∧
    (runSeq xs s).2.trace = s.trace ++ List.replicate xs.length (Action.write 1 helloLine) ∧
    (runSeq xs s).2.world.stdout =
      s.world.stdout ++ (List.replicate xs.length helloLine).flatten ∧
    (runSeq (xs ++ [a]) s).2 = (main a.1 a.2 WriteOutcome.ok (runSeq xs s).2).2 ∧
    (main a.1 a.2 WriteOutcome.ok (runSeq xs s).2).1 = 0 ∧
    (main a.1 a.2 WriteOutcome.ok (runSeq xs s).2).2.world.stdout =
      (runSeq xs s).2.world.stdout ++ helloLine ∧
    (runSeq (List.replicate n a) initSys).1 = List.replicate n 0 ∧
    (runSeq (List.replicate n a) initSys).2.world.stdout =
      (List.replicate n helloLine).flatten := by
  refine ⟨runSeq_status xs s, runSeq_trace xs s, runSeq_stdout xs s, ?_, ?_, ?_, ?_, ?_⟩
  · simp [runSeq_append, runSeq]
  · simp [main_ok_eq]
  · simp [main_ok_eq]
  · simpa using runSeq_status (List.replicate n a) initSys
  · simpa [initSys] using runSeq_stdout (List.replicate n a) initSys

/-- C5: on an explicit world state, one execution of `main` issues exactly
one write action; when the write succeeds the world afterwards is the world
before with `Hello, World!` and a newline appended to standard output, the
earlier contents staying a prefix; and under either outcome standard error,
the files and the environment are unchanged. -/
theorem main_single_write_frame (argc : Int) (argv : List (List Nat))
    (o : WriteOutcome) (s : Sys) :
    (main argc argv o s).2.trace = s.trace ++ [Action.write 1 helloLine] ∧
    (main argc argv WriteOutcome.ok s).2.world =
      { s.world with stdout := s.world.stdout ++ helloLine } ∧
    s.world.stdout <+: (main argc argv WriteOutcome.ok s).2.world.stdout ∧
    (main argc argv WriteOutcome.fail s).2.world = s.world ∧
    (main argc argv o s).2.world.stderr = s.world.stderr ∧
    (main argc argv o s).2.world.files = s.world.files ∧
    (main argc argv o s).2.world.env = s.world.env := by
  refine ⟨?_, ?_, ?_, ?_, ?_, ?_, ?_⟩
  · cases o <;> simp [main_ok_eq, main_fail_eq]
  · simp [main_ok_eq]
  · simp [main_ok_eq]
  · simp [main_fail_eq]
  · cases o <;> simp [main_ok_eq, main_fail_eq]
  · cases o <;> simp [main_ok_eq, main_fail_eq]
  · cases o <;> simp [main_ok_eq, main_fail_eq]

/-- C6: the emitted output is what formatting `"%s\n"` with `msg` gives; it
is 14 bytes long, every byte is below 0x80, it is both the UTF-8 and the ASCII
encoding of the line, the byte 0x0A occurs exactly once, as the last byte and
not among the first 13, and the first 13 bytes are the constant message
`Hello, World!` unaltered. -/
theorem output_is_one_ascii_line (argc : Int) (argv : List (List Nat)) :
    vformat (cstr fmtLit) [Arg.str msgLit] = some (output argc argv) ∧
    (output argc argv).length = 14 ∧
    (∀ b ∈ output argc argv, b < 0x80) ∧
    utf8 "Hello, World!\n" = output argc argv ∧
    ascii "Hello, World!\n" = output argc argv ∧
    (output argc argv).count 0x0A = 1 ∧
    (output argc argv).getLast? = some 0x0A ∧
    0x0A ∉ (output argc argv).take 13 ∧
    (output argc argv).take 13 = cstr msgLit ∧
    cstr msgLit = utf8 "Hello, World!" := by
  rw [output_eq]
  refine ⟨vformat_hello, by rfl, by decide, by rfl, by rfl, by decide, by rfl, by decide,
    by rfl, by rfl⟩

end CInit
